import Mathlib

/-!
Shallow embedding of `src/bot.py` (calcubot): the lark `Transformer` subclass
`Interpreter` (reduction rules `sum`, `product`, `power`, `unary`,
`function_call`, and the dispatch helper `nargs`), and the coroutine `do_calc`
(evaluation-error handling and result formatting).

Modelling conventions:
* Python `Decimal` and `float` values are modelled as exact rationals.  The
  context-precision rounding of `Decimal` arithmetic (28 significant digits)
  and the binary rounding of `float` arithmetic are idealised as exact; no
  theorem below depends on a rounded digit.  What the embedding does track is
  the dynamic type of each value (`Val.tok` for a lark `Token`, i.e. a `str`,
  `Val.dec` for a `Decimal`, `Val.num` for a native `float`/`int` result),
  because the code converts between them at specific places.
* The native float library functions (`math.sin`, `math.cos`, `math.tan`,
  `math.sqrt`, `math.log`, `math.pi`, and non-integral `Decimal` powers) are
  approximate by nature, so they are parameters (`FloatLib`); theorems
  quantify over them.  `math.factorial` and `abs` have exact definitions.
  `math.factorial` follows the Python 3.9 semantics the code targets: an
  integral float is accepted, a negative or non-integral one raises
  `ValueError`.
* The `@timeout(seconds=5)` decorator in `nargs` turns on wall-clock time;
  whether a particular invocation exceeds the budget is modelled by letting
  an underlying implementation return the outcome `FnOutcome.timeout`
  (the spec itself describes timeout tests as "a function configured (in a
  test harness) with an input large enough to exceed the time budget").
* lark's `Transformer.transform` walks the tree bottom-up and wraps any
  exception raised inside a rule callback in `VisitError`; `do_calc`'s
  `except ValueError` clause therefore never fires for tree inputs, and its
  `except VisitError` clause inspects `e.orig_exc`.  `do_calc` below models
  the `VisitError` handler directly on the raised exception value.
* The grammar file `calc.lark` is not under `src/`; tree shapes (`Node`,
  `NodeList`, and the well-formedness predicate `WF`) are modelled from the
  spec's EBNF in section 6.
-/

namespace Calcubot

deriving instance DecidableEq for Except

/-- Python values flowing through the transformer: a lark `Token` (a `str`
subclass) left in place for terminals, a `decimal.Decimal` produced by the
arithmetic reduction rules, or a native `float`/`int` returned unconverted by
`nargs`. -/
inductive Val where
  | tok (s : String)
  | dec (q : ℚ)
  | num (q : ℚ)
deriving DecidableEq, Repr

/-- Python exceptions that the evaluator can raise.  `debug` is the bot's own
`Debug(Exception)` carrying the argument list of a `debug(...)` call;
`invalidStateError` is `asyncio.exceptions.InvalidStateError` raised by the
out-of-alphabet branches of `sum`/`product`; `divisionByZero` and
`invalidOperation` are `decimal.DivisionByZero` and
`decimal.InvalidOperation` (neither is a `ValueError`). -/
inductive PyExc where
  | valueError (msg : String)
  | typeError
  | indexError (msg : String)
  | invalidStateError
  | divisionByZero
  | invalidOperation
  | overflowError
  | timeoutError (msg : String)
  | debug (vals : List Val)
deriving DecidableEq, Repr

/-- Exceptions a `math`-library float function can raise (`ValueError` for
domain errors, `OverflowError` for range errors, `TypeError` for a bad call
shape).  `asyncio.InvalidStateError` is not among them. -/
inductive LibExc where
  | valueError (msg : String)
  | typeError
  | overflowError
deriving DecidableEq, Repr

def LibExc.toPyExc : LibExc → PyExc
  | .valueError m => .valueError m
  | .typeError => .typeError
  | .overflowError => .overflowError

/-- Outcome of running one underlying float implementation under the
`@timeout(seconds=5)` decorator: a value, a library exception, or expiry of
the wall-clock budget (`timeout_decorator.TimeoutError`). -/
inductive FnOutcome where
  | ok (q : ℚ)
  | raise (e : LibExc)
  | timeout
deriving DecidableEq, Repr

/-- The native float library used by the registered functions: `math.sin`,
`math.cos`, `math.tan`, `math.sqrt`, `math.log`, the constant `math.pi`, and
the correctly-rounded value of a non-integral `Decimal` power.  These are
approximate float computations, so they are parameters of the embedding. -/
structure FloatLib where
  sinF : ℚ → FnOutcome
  cosF : ℚ → FnOutcome
  tanF : ℚ → FnOutcome
  sqrtF : ℚ → FnOutcome
  logF : ℚ → ℚ → FnOutcome
  piF : ℚ
  decPowF : ℚ → ℚ → ℚ

/-- Numeric value of a list of ASCII digits. -/
def digitsToNat (l : List Char) : ℕ :=
  l.foldl (fun a c => a * 10 + (c.toNat - 48)) 0

/-- Parse an unsigned decimal literal the way `Decimal(str)`/`float(str)`
accept it from the grammar's NUMBER tokens: digits with an optional single
point; `3.`, `.5` are accepted, an empty or non-digit string is not. -/
def parseUnsignedDec (cs : List Char) : Option ℚ :=
  let w := cs.takeWhile (fun c => c != '.')
  match cs.dropWhile (fun c => c != '.') with
  | [] =>
      if !w.isEmpty && w.all Char.isDigit then
        some ((digitsToNat w : ℚ))
      else none
  | _ :: f =>
      if (!w.isEmpty || !f.isEmpty) && w.all Char.isDigit && f.all Char.isDigit then
        some ((digitsToNat w : ℚ) + (digitsToNat f : ℚ) / (10 : ℚ) ^ f.length)
      else none

/-- Parse a decimal literal with an optional leading sign. -/
def parseDecLit (s : String) : Option ℚ :=
  match s.data with
  | '+' :: rest => parseUnsignedDec rest
  | '-' :: rest => (parseUnsignedDec rest).map (fun q => -q)
  | _ => parseUnsignedDec s.data

/-- `Decimal(x)`: identity on a `Decimal`, exact conversion of a native
`float`/`int`, string parse of a `Token` raising
`decimal.InvalidOperation` when the text is not a numeric literal. -/
def pyDecimal : Val → Except PyExc ℚ
  | .dec q => .ok q
  | .num q => .ok q
  | .tok s =>
      match parseDecLit s with
      | some q => .ok q
      | none => .error .invalidOperation

/-- `float(x)`: conversion of each argument in `nargs`; on a non-numeric
string it raises `ValueError`. -/
def pyFloat : Val → Except PyExc ℚ
  | .dec q => .ok q
  | .num q => .ok q
  | .tok s =>
      match parseDecLit s with
      | some q => .ok q
      | none => .error (.valueError ("could not convert string to float: " ++ s))

/-- `str(x)`, used only to build error-message text. -/
def pyStr : Val → String
  | .tok s => s
  | .dec q => toString q
  | .num q => toString q

/-- Python `x == "s"` for a transformed child `x`: a `Token` compares by
text (it is a `str` subclass); a `Decimal` or `float` is never equal to a
string. -/
def valEqStr (v : Val) (s : String) : Bool :=
  match v with
  | .tok t => t == s
  | _ => false

/-- Python `args[i]` on a list: raises `IndexError` past the end. -/
def pyIndex (l : List Val) (i : ℕ) : Except PyExc Val :=
  match l.get? i with
  | some v => .ok v
  | none => .error (.indexError "list index out of range")

/-- Truncation toward zero, as used by `Decimal` division/remainder. -/
def truncQ (q : ℚ) : ℤ := if 0 ≤ q then ⌊q⌋ else ⌈q⌉

/-- `Decimal.__mod__`: remainder after truncated division, so the result
takes the sign of the dividend. -/
def decRem (a b : ℚ) : ℚ := a - b * truncQ (a / b)

/-- `float.__mod__` with divisor `1`: the result takes the (nonnegative)
sign of the divisor. -/
def floatModOne (q : ℚ) : ℚ := q - ⌊q⌋

namespace Interpreter

/-- `Interpreter.sum`: checks `args[1]` against `"+"` then `"-"`, converting
`args[0]` and `args[2]` with `Decimal(...)`; any other operator raises
`InvalidStateError`. -/
def sum (args : List Val) : Except PyExc Val := do
  let op ← pyIndex args 1
  if valEqStr op "+" then
    let a ← pyIndex args 0
    let b ← pyIndex args 2
    let x ← pyDecimal a
    let y ← pyDecimal b
    return .dec (x + y)
  else if valEqStr op "-" then
    let a ← pyIndex args 0
    let b ← pyIndex args 2
    let x ← pyDecimal a
    let y ← pyDecimal b
    return .dec (x - y)
  else
    .error .invalidStateError

/-- `Interpreter.product`: `*`, `/`, `%` on `Decimal`s.  Division by a zero
`Decimal` raises `decimal.DivisionByZero` (or `decimal.InvalidOperation` for
`0/0`), modulo by zero raises `decimal.InvalidOperation`; any other operator
raises `InvalidStateError`.  (The `print(repr(args))` side effect of the
source is irrelevant to the returned value and is not modelled.) -/
def product (args : List Val) : Except PyExc Val := do
  let op ← pyIndex args 1
  if valEqStr op "*" then
    let a ← pyIndex args 0
    let b ← pyIndex args 2
    let x ← pyDecimal a
    let y ← pyDecimal b
    return .dec (x * y)
  else if valEqStr op "/" then
    let a ← pyIndex args 0
    let b ← pyIndex args 2
    let x ← pyDecimal a
    let y ← pyDecimal b
    if y = 0 then
      if x = 0 then .error .invalidOperation else .error .divisionByZero
    else
      return .dec (x / y)
  else if valEqStr op "%" then
    let a ← pyIndex args 0
    let b ← pyIndex args 2
    let x ← pyDecimal a
    let y ← pyDecimal b
    if y = 0 then .error .invalidOperation
    else return .dec (decRem x y)
  else
    .error .invalidStateError

/-- `Interpreter.power`: `Decimal(args[0]) ** Decimal(args[1])`.  An integral
exponent is exact (with `0 ** 0` raising `decimal.InvalidOperation` and
`0 ** negative` raising `decimal.DivisionByZero`); a non-integral exponent of
a negative base raises `decimal.InvalidOperation`, otherwise the
correctly-rounded library value is returned. -/
def power (lib : FloatLib) (args : List Val) : Except PyExc Val := do
  let a ← pyIndex args 0
  let b ← pyIndex args 1
  let x ← pyDecimal a
  let y ← pyDecimal b
  if y.den = 1 then
    if x = 0 ∧ y ≤ 0 then
      .error (if y = 0 then .invalidOperation else .divisionByZero)
    else
      return .dec (x ^ y.num)
  else if x < 0 then
    .error .invalidOperation
  else
    return .dec (lib.decPowF x y)

/-- `Interpreter.unary`: `+` keeps the operand, anything else negates it. -/
def unary (args : List Val) : Except PyExc Val := do
  let s ← pyIndex args 0
  if valEqStr s "+" then
    let a ← pyIndex args 1
    let x ← pyDecimal a
    return .dec x
  else
    let a ← pyIndex args 1
    let x ← pyDecimal a
    return .dec (-x)

/-- Python builtin `abs` on one float argument. -/
def implAbs : List ℚ → FnOutcome
  | [x] => .ok |x|
  | _ => .raise .typeError

/-- `math.factorial` on a float argument (Python 3.9 semantics): a
non-integral value raises `ValueError("factorial() only accepts integral
values")`, a negative one raises `ValueError("factorial() not defined for
negative values")`, otherwise the exact factorial is returned. -/
def implFact : List ℚ → FnOutcome
  | [x] =>
      if x.den ≠ 1 then .raise (.valueError "factorial() only accepts integral values")
      else if x < 0 then .raise (.valueError "factorial() not defined for negative values")
      else .ok ((Nat.factorial x.num.toNat : ℕ) : ℚ)
  | _ => .raise .typeError

def implSin (lib : FloatLib) : List ℚ → FnOutcome
  | [x] => lib.sinF x
  | _ => .raise .typeError

def implCos (lib : FloatLib) : List ℚ → FnOutcome
  | [x] => lib.cosF x
  | _ => .raise .typeError

def implTan (lib : FloatLib) : List ℚ → FnOutcome
  | [x] => lib.tanF x
  | _ => .raise .typeError

def implSqrt (lib : FloatLib) : List ℚ → FnOutcome
  | [x] => lib.sqrtF x
  | _ => .raise .typeError

/-- `lambda x: x * pi / 180`. -/
def implDegToRad (lib : FloatLib) : List ℚ → FnOutcome
  | [x] => .ok (x * lib.piF / 180)
  | _ => .raise .typeError

/-- `lambda x: x * 180 / pi`. -/
def implRadToDeg (lib : FloatLib) : List ℚ → FnOutcome
  | [x] => .ok (x * 180 / lib.piF)
  | _ => .raise .typeError

/-- `math.log(value, base)`. -/
def implLog (lib : FloatLib) : List ℚ → FnOutcome
  | [x, b] => lib.logF x b
  | _ => .raise .typeError

/-- `tuple(map(float, args))`, evaluated left to right before the timed
call; the first failing conversion aborts. -/
def mapFloat : List Val → Except PyExc (List ℚ)
  | [] => .ok []
  | v :: vs => do
      let x ← pyFloat v
      let xs ← mapFloat vs
      return (x :: xs)

/-- `Interpreter.nargs`: arity check, float conversion of the arguments, the
timed call, and the conversion of `timeout_decorator.TimeoutError` into a
`ValueError` naming the function.  A successful result is returned as the
native number the implementation produced — no conversion back to
`Decimal`. -/
def nargs (n : ℕ) (args : List Val) (fn : String) (f : List ℚ → FnOutcome) :
    Except PyExc Val :=
  if args.length ≠ n then
    .error (.valueError ("function " ++ fn ++ " takes " ++ toString n ++ " args, not " ++
      toString args.length))
  else
    match mapFloat args with
    | .error e => .error e
    | .ok fl =>
        match f fl with
        | .ok q => .ok (.num q)
        | .raise e => .error e.toPyExc
        | .timeout => .error (.valueError ("function " ++ fn ++
            " took too long to run and was killed. You've been a bad boy."))

/-- `Interpreter.function_call`: dispatch on `args[0]` through the chain of
registered names, `debug` raising the `Debug` exception with the remaining
(already transformed) arguments, and the unknown-name fallback whose error
message interpolates `args[1]` (an `IndexError` when the call has no
arguments). -/
def function_call (lib : FloatLib) (args : List Val) : Except PyExc Val :=
  match args with
  | [] => .error (.indexError "list index out of range")
  | a0 :: rest =>
      if valEqStr a0 "abs" then nargs 1 rest "abs" implAbs
      else if valEqStr a0 "sin" then nargs 1 rest "sin" (implSin lib)
      else if valEqStr a0 "cos" then nargs 1 rest "cos" (implCos lib)
      else if valEqStr a0 "tan" then nargs 1 rest "tan" (implTan lib)
      else if valEqStr a0 "deg_to_rad" then nargs 1 rest "deg_to_rad" (implDegToRad lib)
      else if valEqStr a0 "rad_to_deg" then nargs 1 rest "rad_to_deg" (implRadToDeg lib)
      else if valEqStr a0 "sqrt" then nargs 1 rest "sqrt" (implSqrt lib)
      else if valEqStr a0 "fact" then nargs 1 rest "fact" implFact
      else if valEqStr a0 "log" then nargs 2 rest "log" (implLog lib)
      else if valEqStr a0 "debug" then .error (.debug rest)
      else
        match rest with
        | [] => .error (.indexError "list index out of range")
        | a1 :: _ => .error (.valueError ("unknown function " ++ pyStr a0 ++ "(" ++
            pyStr a1 ++ ")"))

end Interpreter

/-- Rule names of the productions the transformer implements. -/
inductive Rule where
  | sum
  | product
  | power
  | unary
  | function_call
deriving DecidableEq, Repr

mutual
/-- A lark parse-tree node: a terminal `Token` or a rule node with its
ordered children. -/
inductive Node where
  | token (s : String)
  | tree (r : Rule) (cs : NodeList)
/-- The ordered children of a rule node. -/
inductive NodeList where
  | nil
  | cons (c : Node) (cs : NodeList)
end

/-- Dispatch of `getattr(self, tree.data)` to the rule callbacks. -/
def callRule (lib : FloatLib) (r : Rule) (args : List Val) : Except PyExc Val :=
  match r with
  | .sum => Interpreter.sum args
  | .product => Interpreter.product args
  | .power => Interpreter.power lib args
  | .unary => Interpreter.unary args
  | .function_call => Interpreter.function_call lib args

mutual
/-- `Transformer.transform`: bottom-up, left-to-right; a `Token` child is
kept as is, a rule node is replaced by its callback's result; the first
exception aborts the walk. -/
def transform (lib : FloatLib) : Node → Except PyExc Val
  | .token s => .ok (.tok s)
  | .tree r cs =>
      match transformList lib cs with
      | .error e => .error e
      | .ok vs => callRule lib r vs
termination_by structural t => t
/-- Transform a node's children in order. -/
def transformList (lib : FloatLib) : NodeList → Except PyExc (List Val)
  | .nil => .ok []
  | .cons c cs =>
      match transform lib c with
      | .error e => .error e
      | .ok v =>
          match transformList lib cs with
          | .error e => .error e
          | .ok vs => .ok (v :: vs)
termination_by structural t => t
end

/-- `sys.float_info.epsilon`, the machine epsilon of a binary64 float. -/
def eps : ℚ := 1 / 2 ^ 52

/-- The message `do_calc` sends back for one evaluation, at the level of
detail the claims need: the raw first argument of a `Debug` signal, the
`TimeoutError` rendering, the joined `e.orig_exc.args` rendering of any other
wrapped exception, an exception escaping `do_calc` itself, or the final
answer as an exact fraction plus an optional approximate decimal. -/
inductive BotReply where
  | debugSent (v : Val)
  | evalTimeoutMsg (s : String)
  | errLines (s : String)
  | crash (e : PyExc)
  | answer (frac : ℚ) (approx : Option ℚ)
deriving DecidableEq, Repr

/-- Python `"\n".join`. -/
def joinLines : List String → String
  | [] => ""
  | [s] => s
  | s :: rest => s ++ "\n" ++ joinLines rest

/-- The `args` tuple of each exception, as rendered by
`"\n".join(map(str, e.orig_exc.args))`.  The texts of the argument-less
decimal exceptions are idealised; no claim depends on them. -/
def excArgs : PyExc → List String
  | .valueError m => [m]
  | .typeError => ["type error"]
  | .indexError m => [m]
  | .invalidStateError => []
  | .divisionByZero => ["division by zero"]
  | .invalidOperation => ["invalid operation"]
  | .overflowError => ["math range error"]
  | .timeoutError m => [m]
  | .debug vs => vs.map pyStr

/-- The tail of `do_calc`: `res % 1 > float_info.epsilon and (1 - res % 1) >
float_info.epsilon` selects fraction-plus-decimal, otherwise only the
fraction is sent.  `res` is a `Decimal` when an arithmetic rule produced it
(`%` takes the sign of the dividend) and a native number when a bare
function call did (`%` takes the sign of the divisor).  `Fraction(res)` is
the exact reduced fraction and `float(res)` the approximate decimal. -/
def formatAnswer (v : Val) : BotReply :=
  match v with
  | .dec q =>
      if decRem q 1 > eps ∧ 1 - decRem q 1 > eps then .answer q (some q)
      else .answer q none
  | .num q =>
      if floatModOne q > eps ∧ 1 - floatModOne q > eps then .answer q (some q)
      else .answer q none
  | .tok _ => .crash .typeError

/-- `do_calc` after a successful parse of a tree: evaluate with the
transformer and render.  All rule exceptions arrive wrapped in `VisitError`,
so the `except ValueError` clause of the source never fires here; the
`VisitError` handler sends the first `Debug` argument (an `IndexError` in
the handler itself when `debug()` had no arguments), the dedicated message
for a builtin `TimeoutError`, and the joined exception args otherwise. -/
def do_calc (lib : FloatLib) (t : Node) : BotReply :=
  match transform lib t with
  | .ok v => formatAnswer v
  | .error e =>
      match e with
      | .debug vs =>
          match vs with
          | [] => .crash (.indexError "tuple index out of range")
          | v :: _ => .debugSent v
      | .timeoutError m => .evalTimeoutMsg ("Encountered an error while evaluating: " ++ m)
      | e2 => .errLines (joinLines (excArgs e2))

/-- The registered functions with a declared (fixed) arity; `debug` is
variadic and has none. -/
def registeredArity : List (String × ℕ) :=
  [("abs", 1), ("sin", 1), ("cos", 1), ("tan", 1), ("deg_to_rad", 1), ("rad_to_deg", 1),
    ("sqrt", 1), ("fact", 1), ("log", 2)]

/-- A concrete instantiation of the float library, for closed witnesses. -/
def zeroLib : FloatLib where
  sinF := fun _ => .ok 0
  cosF := fun _ => .ok 0
  tanF := fun _ => .ok 0
  sqrtF := fun _ => .ok 0
  logF := fun _ _ => .ok 0
  piF := 0
  decPowF := fun _ _ => 0

/-- A float library whose `sin` exceeds the 5-second budget: the test-harness
configuration the spec describes for the timeout property. -/
def timeoutLib : FloatLib where
  sinF := fun _ => .timeout
  cosF := fun _ => .ok 0
  tanF := fun _ => .ok 0
  sqrtF := fun _ => .ok 0
  logF := fun _ _ => .ok 0
  piF := 0
  decPowF := fun _ _ => 0

/-- Parse tree of `debug(3,4)` (literal arguments stay tokens). -/
def debug34Tree : Node :=
  .tree .function_call (.cons (.token "debug") (.cons (.token "3") (.cons (.token "4") .nil)))

/-- Parse tree of `1 + 2`. -/
def sum12Tree : Node :=
  .tree .sum (.cons (.token "1") (.cons (.token "+") (.cons (.token "2") .nil)))

/-- Parse tree of `debug(1+2)`: one compound argument. -/
def debugSumTree : Node :=
  .tree .function_call (.cons (.token "debug") (.cons sum12Tree .nil))

/-- Parse tree of `sin(1)`. -/
def sinCallTree : Node :=
  .tree .function_call (.cons (.token "sin") (.cons (.token "1") .nil))

/-- Parse tree of `abs(3)`. -/
def absCallTree : Node :=
  .tree .function_call (.cons (.token "abs") (.cons (.token "3") .nil))

/-- Parse tree of `fact(-1)`: the argument is a unary-minus node. -/
def factNeg1Tree : Node :=
  .tree .function_call (.cons (.token "fact")
    (.cons (.tree .unary (.cons (.token "-") (.cons (.token "1") .nil))) .nil))

/-- Parse tree of `1 / 0`. -/
def oneDivZeroTree : Node :=
  .tree .product (.cons (.token "1") (.cons (.token "/") (.cons (.token "0") .nil)))

mutual
/-- Modelled from the spec: the grammar file `calc.lark` is not under
`src/`, so the shape of the trees it can produce is taken from the spec's
EBNF (section 6) and tree-shape invariant (section 3): `sum` and `product`
nodes hold a left operand, an operator token from their declared alphabet,
and a right operand; `power` holds two operands; `unary` holds a sign token
and an operand; `function_call` holds the name token and the argument
nodes. -/
inductive WF : Node → Prop where
  | token (s : String) : WF (.token s)
  | sum {a b : Node} {op : String} (hop : op = "+" ∨ op = "-")
      (ha : WF a) (hb : WF b) :
      WF (.tree .sum (.cons a (.cons (.token op) (.cons b .nil))))
  | product {a b : Node} {op : String} (hop : op = "*" ∨ op = "/" ∨ op = "%")
      (ha : WF a) (hb : WF b) :
      WF (.tree .product (.cons a (.cons (.token op) (.cons b .nil))))
  | power {a b : Node} (ha : WF a) (hb : WF b) :
      WF (.tree .power (.cons a (.cons b .nil)))
  | unary {a : Node} {sg : String} (hs : sg = "+" ∨ sg = "-") (ha : WF a) :
      WF (.tree .unary (.cons (.token sg) (.cons a .nil)))
  | call {name : String} {args : NodeList} (hargs : WFL args) :
      WF (.tree .function_call (.cons (.token name) args))
/-- Modelled from the spec: well-formedness of a children list. -/
inductive WFL : NodeList → Prop where
  | nil : WFL .nil
  | cons {c : Node} {cs : NodeList} (hc : WF c) (hcs : WFL cs) : WFL (.cons c cs)
end

/-- Discriminator: is this exception a `ValueError`? -/
def PyExc.isValueError : PyExc → Bool
  | .valueError _ => true
  | _ => false

/-- Discriminator: is this exception a builtin `TimeoutError`? -/
def PyExc.isTimeoutError : PyExc → Bool
  | .timeoutError _ => true
  | _ => false

/-- Discriminator: is this value a `Decimal` (the spec's NumericValue)? -/
def Val.isDec : Val → Bool
  | .dec _ => true
  | _ => false

/-! ### Helper lemmas -/

theorem pyDecimal_error_eq {v : Val} {e : PyExc} (h : pyDecimal v = .error e) :
    e = .invalidOperation := by
  cases v with
  | dec q => simp [pyDecimal] at h
  | num q => simp [pyDecimal] at h
  | tok s =>
      simp only [pyDecimal] at h
      cases hp : parseDecLit s with
      | some q => rw [hp] at h; simp at h
      | none => rw [hp] at h; simp at h; exact h.symm

theorem pyFloat_error_kind {v : Val} {e : PyExc} (h : pyFloat v = .error e) :
    ∃ m, e = .valueError m := by
  cases v with
  | dec q => simp [pyFloat] at h
  | num q => simp [pyFloat] at h
  | tok s =>
      simp only [pyFloat] at h
      cases hp : parseDecLit s with
      | some q => rw [hp] at h; simp at h
      | none => rw [hp] at h; simp at h; exact ⟨_, h.symm⟩

theorem pyIndex_error_kind {l : List Val} {i : ℕ} {e : PyExc} (h : pyIndex l i = .error e) :
    ∃ m, e = .indexError m := by
  unfold pyIndex at h
  cases hg : l.get? i with
  | some v => rw [hg] at h; simp at h
  | none => rw [hg] at h; simp at h; exact ⟨_, h.symm⟩

theorem mapFloat_error_kind {args : List Val} {e : PyExc}
    (h : Interpreter.mapFloat args = .error e) : ∃ m, e = .valueError m := by
  induction args with
  | nil => simp [Interpreter.mapFloat] at h
  | cons v vs ih =>
      simp only [Interpreter.mapFloat, bind, Except.bind] at h
      cases hv : pyFloat v with
      | error e2 =>
          rw [hv] at h
          simp at h
          subst h
          exact pyFloat_error_kind hv
      | ok x =>
          rw [hv] at h
          cases hm : Interpreter.mapFloat vs with
          | error e2 => rw [hm] at h; simp at h; subst h; exact ih hm
          | ok xs => rw [hm] at h; simp [pure, Except.pure] at h

theorem toPyExc_ne_ise (e : LibExc) : e.toPyExc ≠ PyExc.invalidStateError := by
  cases e <;> simp [LibExc.toPyExc]

theorem nargs_ne_ise (n : ℕ) (args : List Val) (fn : String) (f : List ℚ → FnOutcome) :
    Interpreter.nargs n args fn f ≠ Except.error PyExc.invalidStateError := by
  unfold Interpreter.nargs
  split
  · simp
  · cases hm : Interpreter.mapFloat args with
    | error e =>
        obtain ⟨m, rfl⟩ := mapFloat_error_kind hm
        simp
    | ok fl =>
        cases hf : f fl with
        | ok q => simp [hf]
        | raise e => simpa [hf] using toPyExc_ne_ise e
        | timeout => simp [hf]

theorem function_call_ne_ise (lib : FloatLib) (args : List Val) :
    Interpreter.function_call lib args ≠ Except.error PyExc.invalidStateError := by
  cases args with
  | nil => simp [Interpreter.function_call]
  | cons a0 rest =>
      simp only [Interpreter.function_call]
      repeat' split
      all_goals first
        | exact nargs_ne_ise _ _ _ _
        | simp

theorem power_ne_ise (lib : FloatLib) (args : List Val) :
    Interpreter.power lib args ≠ Except.error PyExc.invalidStateError := by
  unfold Interpreter.power
  simp only [bind, Except.bind]
  cases h0 : pyIndex args 0 with
  | error e => obtain ⟨m, rfl⟩ := pyIndex_error_kind h0; simp
  | ok a =>
      cases h1 : pyIndex args 1 with
      | error e => obtain ⟨m, rfl⟩ := pyIndex_error_kind h1; simp
      | ok b =>
          cases hx : pyDecimal a with
          | error e => have he := pyDecimal_error_eq hx; subst he; simp [hx]
          | ok x =>
              cases hy : pyDecimal b with
              | error e => have he := pyDecimal_error_eq hy; subst he; simp [hx, hy]
              | ok y =>
                  simp only [hx, hy]
                  repeat' split
                  all_goals simp [pure, Except.pure]

theorem unary_ne_ise (args : List Val) :
    Interpreter.unary args ≠ Except.error PyExc.invalidStateError := by
  unfold Interpreter.unary
  simp only [bind, Except.bind]
  cases h0 : pyIndex args 0 with
  | error e => obtain ⟨m, rfl⟩ := pyIndex_error_kind h0; simp
  | ok s =>
      cases h1 : pyIndex args 1 with
      | error e => obtain ⟨m, rfl⟩ := pyIndex_error_kind h1; simp
      | ok a =>
          cases hx : pyDecimal a with
          | error e =>
              have he := pyDecimal_error_eq hx
              subst he
              split <;> simp_all
          | ok x => (repeat' split) <;> simp_all [pure, Except.pure]

theorem sum_tok_ne_ise (va vb : Val) (op : String) (hop : op = "+" ∨ op = "-") :
    Interpreter.sum [va, .tok op, vb] ≠ Except.error PyExc.invalidStateError := by
  have h0 : ∀ w : Val, pyIndex [va, w, vb] 0 = Except.ok va := fun _ => rfl
  have h1 : ∀ w : Val, pyIndex [va, w, vb] 1 = Except.ok w := fun _ => rfl
  have h2 : ∀ w : Val, pyIndex [va, w, vb] 2 = Except.ok vb := fun _ => rfl
  cases hva : pyDecimal va with
  | error e =>
      have he := pyDecimal_error_eq hva
      subst he
      rcases hop with rfl | rfl <;>
        simp [Interpreter.sum, bind, Except.bind, valEqStr, h0, h1, h2, hva, pure, Except.pure]
  | ok x =>
      cases hvb : pyDecimal vb with
      | error e =>
          have he := pyDecimal_error_eq hvb
          subst he
          rcases hop with rfl | rfl <;>
            simp [Interpreter.sum, bind, Except.bind, valEqStr, h0, h1, h2, hva, hvb, pure, Except.pure]
      | ok y =>
          rcases hop with rfl | rfl <;>
            simp [Interpreter.sum, bind, Except.bind, valEqStr, h0, h1, h2, hva, hvb, pure, Except.pure]

theorem product_tok_ne_ise (va vb : Val) (op : String)
    (hop : op = "*" ∨ op = "/" ∨ op = "%") :
    Interpreter.product [va, .tok op, vb] ≠ Except.error PyExc.invalidStateError := by
  have h0 : ∀ w : Val, pyIndex [va, w, vb] 0 = Except.ok va := fun _ => rfl
  have h1 : ∀ w : Val, pyIndex [va, w, vb] 1 = Except.ok w := fun _ => rfl
  have h2 : ∀ w : Val, pyIndex [va, w, vb] 2 = Except.ok vb := fun _ => rfl
  cases hva : pyDecimal va with
  | error e =>
      have he := pyDecimal_error_eq hva
      subst he
      rcases hop with rfl | rfl | rfl <;>
        simp [Interpreter.product, bind, Except.bind, valEqStr, h0, h1, h2, hva, pure, Except.pure]
  | ok x =>
      cases hvb : pyDecimal vb with
      | error e =>
          have he := pyDecimal_error_eq hvb
          subst he
          rcases hop with rfl | rfl | rfl <;>
            simp [Interpreter.product, bind, Except.bind, valEqStr, h0, h1, h2, hva, hvb, pure, Except.pure]
      | ok y =>
          rcases hop with rfl | rfl | rfl <;>
            simp [Interpreter.product, bind, Except.bind, valEqStr, h0, h1, h2, hva, hvb, pure, Except.pure] <;>
            (repeat' split) <;> simp

theorem transformList_shape3 (lib : FloatLib) (a b : Node) (op : String) (vs : List Val)
    (h : transformList lib (.cons a (.cons (.token op) (.cons b .nil))) = .ok vs) :
    ∃ va vb, vs = [va, Val.tok op, vb] := by
  simp only [transformList, transform] at h
  cases hA : transform lib a with
  | error e => rw [hA] at h; simp at h
  | ok va =>
      rw [hA] at h
      cases hB : transform lib b with
      | error e => rw [hB] at h; simp at h
      | ok vb =>
          rw [hB] at h
          simp at h
          exact ⟨va, vb, h.symm⟩

theorem tree_case_aux (lib : FloatLib) (r : Rule) (cs : NodeList)
    (hlist : transformList lib cs ≠ Except.error PyExc.invalidStateError)
    (hrule : ∀ vs, transformList lib cs = .ok vs →
      callRule lib r vs ≠ Except.error PyExc.invalidStateError) :
    transform lib (.tree r cs) ≠ Except.error PyExc.invalidStateError := by
  simp only [transform]
  cases hvs : transformList lib cs with
  | error e =>
      intro hcontra
      injection hcontra with he
      exact hlist (he ▸ hvs)
  | ok vs => exact hrule vs hvs

mutual
theorem transform_wf_aux (lib : FloatLib) : ∀ (t : Node), WF t →
    transform lib t ≠ Except.error PyExc.invalidStateError
  | .token s, _ => by simp [transform]
  | .tree _ _, h => by
      cases h with
      | @sum a b op hop ha hb =>
          exact tree_case_aux lib _ _
            (transformList_wf_aux lib _
              (WFL.cons ha (WFL.cons (WF.token op) (WFL.cons hb WFL.nil))))
            (fun vs hvs => by
              obtain ⟨va, vb, rfl⟩ := transformList_shape3 lib a b op vs hvs
              exact sum_tok_ne_ise va vb op hop)
      | @product a b op hop ha hb =>
          exact tree_case_aux lib _ _
            (transformList_wf_aux lib _
              (WFL.cons ha (WFL.cons (WF.token op) (WFL.cons hb WFL.nil))))
            (fun vs hvs => by
              obtain ⟨va, vb, rfl⟩ := transformList_shape3 lib a b op vs hvs
              exact product_tok_ne_ise va vb op hop)
      | @power a b ha hb =>
          exact tree_case_aux lib _ _
            (transformList_wf_aux lib _ (WFL.cons ha (WFL.cons hb WFL.nil)))
            (fun vs _ => power_ne_ise lib vs)
      | @unary a sg hs ha =>
          exact tree_case_aux lib _ _
            (transformList_wf_aux lib _ (WFL.cons (WF.token sg) (WFL.cons ha WFL.nil)))
            (fun vs _ => unary_ne_ise vs)
      | @call name args hargs =>
          exact tree_case_aux lib _ _
            (transformList_wf_aux lib _ (WFL.cons (WF.token name) hargs))
            (fun vs _ => function_call_ne_ise lib vs)

theorem transformList_wf_aux (lib : FloatLib) : ∀ (cs : NodeList), WFL cs →
    transformList lib cs ≠ Except.error PyExc.invalidStateError
  | .nil, _ => by simp [transformList]
  | .cons c cs, h => by
      cases h with
      | cons hc hcs =>
          have H1 := transform_wf_aux lib c hc
          have H2 := transformList_wf_aux lib cs hcs
          simp only [transformList]
          cases hv : transform lib c with
          | error e =>
              intro hcontra
              injection hcontra with he
              exact H1 (he ▸ hv)
          | ok v =>
              cases hvs : transformList lib cs with
              | error e =>
                  intro hcontra
                  injection hcontra with he
                  exact H2 (he ▸ hvs)
              | ok vs => simp
end

/-! ### Claim theorems -/

/-- Claim C8: for every parse tree the grammar can produce (well-formedness
`WF`, modelled from the spec because `calc.lark` is not under `src/`), the
out-of-alphabet branch of the `sum` and `product` reduction rules is
unreachable: every sum node carries `+` or `-` and every product node `*`,
`/` or `%`, so evaluation never raises `InvalidStateError`. -/
theorem C8_no_invalid_state (lib : FloatLib) (t : Node) (h : WF t) :
    transform lib t ≠ Except.error PyExc.invalidStateError :=
  transform_wf_aux lib t h

/-- Witness for C8 at the concrete tree of `1 + 2` under a concrete float
library. -/
theorem C8_no_invalid_state_witness :
    transform zeroLib sum12Tree ≠ Except.error PyExc.invalidStateError :=
  C8_no_invalid_state zeroLib sum12Tree
    (WF.sum (Or.inl rfl) (WF.token "1") (WF.token "2"))

/-- Claim C5: the formatter computes `frac = v mod 1` (Decimal semantics for
a NumericValue) and emits the exact reduced fraction together with the
approximate decimal exactly when both `frac` and `1 - frac` exceed the
machine epsilon, and only the fraction otherwise; `1/3` gets both
renderings, `2` (the value of `4/2`) only the fraction. -/
theorem C5_formatter (d : ℚ) :
    (formatAnswer (.dec d) = .answer d (some d) ↔
      decRem d 1 > eps ∧ 1 - decRem d 1 > eps) ∧
    (¬(decRem d 1 > eps ∧ 1 - decRem d 1 > eps) →
      formatAnswer (.dec d) = .answer d none) ∧
    formatAnswer (.dec (1 / 3)) = .answer (1 / 3) (some (1 / 3)) ∧
    formatAnswer (.dec 2) = .answer 2 none := by
  refine ⟨?_, ?_, ?_, ?_⟩
  · by_cases hc : decRem d 1 > eps ∧ 1 - decRem d 1 > eps
    · simp [formatAnswer, hc]
    · simp [formatAnswer, hc]
  · intro hc
    simp [formatAnswer, hc]
  · have hf : ⌊(1 : ℚ) / 3 / 1⌋ = 0 := by
      rw [Int.floor_eq_zero_iff]
      constructor <;> norm_num
    have h1 : decRem ((1 : ℚ) / 3) 1 = 1 / 3 := by
      rw [decRem, truncQ, if_pos (by norm_num : (0 : ℚ) ≤ 1 / 3 / 1), hf]
      norm_num
    have hc : decRem ((1 : ℚ) / 3) 1 > eps ∧ 1 - decRem ((1 : ℚ) / 3) 1 > eps := by
      rw [h1]
      unfold eps
      constructor <;> norm_num
    simp only [formatAnswer]
    rw [if_pos hc]
  · have hf : ⌊(2 : ℚ) / 1⌋ = 2 := by
      rw [Int.floor_eq_iff]
      constructor <;> norm_num
    have h2 : decRem (2 : ℚ) 1 = 0 := by
      rw [decRem, truncQ, if_pos (by norm_num : (0 : ℚ) ≤ 2 / 1), hf]
      norm_num
    have hc : ¬(decRem (2 : ℚ) 1 > eps ∧ 1 - decRem (2 : ℚ) 1 > eps) := by
      rw [h2]
      unfold eps
      intro h
      exact absurd h.1 (by norm_num)
    simp only [formatAnswer]
    rw [if_neg hc]

/-- Claim C6: invoking a registered function of declared arity `n` with any
other number of arguments fails with a `ValueError` whose message names the
function, the expected arity and the actual count. -/
theorem C6_arity_error (lib : FloatLib) (name : String) (n : ℕ)
    (hmem : (name, n) ∈ registeredArity) (vs : List Val) (hlen : vs.length ≠ n) :
    Interpreter.function_call lib (.tok name :: vs) =
      .error (.valueError ("function " ++ name ++ " takes " ++ toString n ++
        " args, not " ++ toString vs.length)) := by
  simp only [registeredArity, List.mem_cons, List.not_mem_nil, or_false,
    Prod.mk.injEq] at hmem
  rcases hmem with h | h | h | h | h | h | h | h | h <;>
    obtain ⟨rfl, rfl⟩ := h <;>
    simp +decide [Interpreter.function_call, valEqStr, Interpreter.nargs, hlen]

/-- Witness for C6: `abs` declares one argument, so `abs(1,2)` fails naming
`abs`, arity 1, count 2. -/
theorem C6_arity_error_witness :
    Interpreter.function_call zeroLib [.tok "abs", .tok "1", .tok "2"] =
      .error (.valueError "function abs takes 1 args, not 2") := by
  have h := C6_arity_error zeroLib "abs" 1 (by decide) [.tok "1", .tok "2"] (by decide)
  exact h.trans (by decide)

/-- Claim C9: calling an unregistered function name raises the promised
`ValueError` (naming the unknown function) only when the call has at least
one argument; with zero arguments the error message itself indexes
`args[1]` past the end of the list and an `IndexError` is raised instead. -/
theorem C9_unknown_function (lib : FloatLib) (name : String)
    (h : name ∉ ["abs", "sin", "cos", "tan", "deg_to_rad", "rad_to_deg", "sqrt", "fact",
      "log", "debug"]) :
    Interpreter.function_call lib [.tok name] =
      .error (.indexError "list index out of range") ∧
    ∀ (v : Val) (rest : List Val),
      Interpreter.function_call lib (.tok name :: v :: rest) =
        .error (.valueError ("unknown function " ++ name ++ "(" ++ pyStr v ++ ")")) := by
  simp only [List.mem_cons, List.not_mem_nil, or_false, not_or] at h
  obtain ⟨h1, h2, h3, h4, h5, h6, h7, h8, h9, h10⟩ := h
  constructor
  · simp [Interpreter.function_call, valEqStr, pyStr, h1, h2, h3, h4, h5, h6, h7, h8,
      h9, h10]
  · intro v rest
    simp [Interpreter.function_call, valEqStr, pyStr, h1, h2, h3, h4, h5, h6, h7, h8,
      h9, h10]

/-- Witness for C9: `foo()` raises `IndexError`, `foo(5)` raises the
`ValueError` naming `foo`. -/
theorem C9_unknown_function_witness :
    Interpreter.function_call zeroLib [.tok "foo"] =
      .error (.indexError "list index out of range") ∧
    Interpreter.function_call zeroLib [.tok "foo", .tok "5"] =
      .error (.valueError "unknown function foo(5)") := by
  have h := C9_unknown_function zeroLib "foo" (by decide)
  exact ⟨h.1, (h.2 (.tok "5") []).trans (by decide)⟩

/-- Claim C1 counterexample: with `sin` configured (test-harness style) to
exceed the time budget, `sin(1)` fails — but the raised exception is the
`ValueError` `nargs` substitutes for the internal timeout, not a
`TimeoutError`, and `do_calc` renders it through the generic
exception-args path, not the `TimeoutError` branch. -/
theorem C1_counterexample :
    transform timeoutLib sinCallTree =
      .error (.valueError
        "function sin took too long to run and was killed. You\'ve been a bad boy.") ∧
    PyExc.isTimeoutError
      (.valueError
        "function sin took too long to run and was killed. You\'ve been a bad boy.") =
      false ∧
    do_calc timeoutLib sinCallTree =
      .errLines
        "function sin took too long to run and was killed. You\'ve been a bad boy." := by
  refine ⟨?_, rfl, ?_⟩
  · simp +decide [sinCallTree, transform, transformList, callRule,
      Interpreter.function_call, Interpreter.nargs, Interpreter.mapFloat,
      Interpreter.implSin, timeoutLib, valEqStr, pyFloat, parseDecLit, parseUnsignedDec,
      digitsToNat, bind, Except.bind, pure, Except.pure]
  · simp +decide [do_calc, sinCallTree, transform, transformList, callRule,
      Interpreter.function_call, Interpreter.nargs, Interpreter.mapFloat,
      Interpreter.implSin, timeoutLib, valEqStr, pyFloat, parseDecLit, parseUnsignedDec,
      digitsToNat, bind, Except.bind, pure, Except.pure, joinLines, excArgs]

/-- Claim C1 (amended): when a registered function invocation exceeds the
time budget, the call is terminated and the whole evaluation fails — but
with a `ValueError` whose message names the offending function ("function
fn took too long to run and was killed."), not a `TimeoutError`. -/
theorem C1_timeout_valueerror (n : ℕ) (args : List Val) (fn : String)
    (f : List ℚ → FnOutcome) (fl : List ℚ)
    (hn : args.length = n) (hm : Interpreter.mapFloat args = .ok fl)
    (ht : f fl = .timeout) :
    Interpreter.nargs n args fn f = .error (.valueError ("function " ++ fn ++
      " took too long to run and was killed. You\'ve been a bad boy.")) := by
  unfold Interpreter.nargs
  rw [if_neg (by simp [hn])]
  simp [hm, ht]

/-- Witness for the amended C1 at a concrete timed-out call. -/
theorem C1_timeout_valueerror_witness :
    Interpreter.nargs 1 [Val.tok "1"] "sin" (fun _ => FnOutcome.timeout) =
      .error (.valueError ("function " ++ "sin" ++
        " took too long to run and was killed. You\'ve been a bad boy.")) :=
  C1_timeout_valueerror 1 [Val.tok "1"] "sin" (fun _ => FnOutcome.timeout) [1]
    (by decide)
    (by simp +decide [Interpreter.mapFloat, pyFloat, parseDecLit, parseUnsignedDec,
      digitsToNat, bind, Except.bind, pure, Except.pure])
    rfl

/-- Claim C2 counterexample: `1 / 0` fails with `decimal.DivisionByZero`,
which is not a `ValueError` (and `do_calc` renders it through the generic
exception-args path, not the `except ValueError` clause). -/
theorem C2_counterexample :
    transform zeroLib oneDivZeroTree = .error .divisionByZero ∧
    PyExc.isValueError .divisionByZero = false ∧
    do_calc zeroLib oneDivZeroTree = .errLines "division by zero" := by
  refine ⟨?_, rfl, ?_⟩
  · simp +decide [oneDivZeroTree, transform, transformList, callRule,
      Interpreter.product, valEqStr, pyDecimal, pyIndex, parseDecLit, parseUnsignedDec,
      digitsToNat, bind, Except.bind, pure, Except.pure]
  · simp +decide [do_calc, oneDivZeroTree, transform, transformList, callRule,
      Interpreter.product, valEqStr, pyDecimal, pyIndex, parseDecLit, parseUnsignedDec,
      digitsToNat, bind, Except.bind, pure, Except.pure, joinLines, excArgs]

/-- Claim C2 (amended): a product node whose right operand reduces to zero
and whose operator is `/` or `%` aborts evaluation with a decimal
arithmetic error — `decimal.DivisionByZero` for `/` on a nonzero left
operand, `decimal.InvalidOperation` for `0 / 0` and for any `% 0` — none of
which is a `ValueError`; no numeric result is returned. -/
theorem C2_divzero_kind (l r : Val) (a : ℚ)
    (hl : pyDecimal l = .ok a) (hr : pyDecimal r = .ok 0) :
    (a ≠ 0 → Interpreter.product [l, .tok "/", r] = .error .divisionByZero) ∧
    (a = 0 → Interpreter.product [l, .tok "/", r] = .error .invalidOperation) ∧
    Interpreter.product [l, .tok "%", r] = .error .invalidOperation ∧
    PyExc.isValueError .divisionByZero = false ∧
    PyExc.isValueError .invalidOperation = false := by
  have h0 : ∀ w : Val, pyIndex [l, w, r] 0 = Except.ok l := fun _ => rfl
  have h1 : ∀ w : Val, pyIndex [l, w, r] 1 = Except.ok w := fun _ => rfl
  have h2 : ∀ w : Val, pyIndex [l, w, r] 2 = Except.ok r := fun _ => rfl
  refine ⟨?_, ?_, ?_, rfl, rfl⟩
  · intro ha
    simp [Interpreter.product, bind, Except.bind, valEqStr, h0, h1, h2, hl, hr, ha]
  · intro ha
    subst ha
    simp [Interpreter.product, bind, Except.bind, valEqStr, h0, h1, h2, hl, hr]
  · simp [Interpreter.product, bind, Except.bind, valEqStr, h0, h1, h2, hl, hr]

/-- Witness for the amended C2 at `Decimal(1) / Decimal(0)` and
`Decimal(1) % Decimal(0)`. -/
theorem C2_divzero_kind_witness :
    Interpreter.product [.dec 1, .tok "/", .dec 0] = .error .divisionByZero ∧
    Interpreter.product [.dec 1, .tok "%", .dec 0] = .error .invalidOperation := by
  have h := C2_divzero_kind (.dec 1) (.dec 0) 1 rfl rfl
  exact ⟨h.1 (by norm_num), h.2.2.1⟩

/-- Claim C3 counterexample: `abs(3)` evaluates to the native number the
implementation returned — not a `Decimal` — and that native value is what
the formatter receives. -/
theorem C3_counterexample :
    transform zeroLib absCallTree = .ok (.num 3) ∧
    Val.isDec (.num 3) = false ∧
    do_calc zeroLib absCallTree = .answer 3 none := by
  refine ⟨?_, rfl, ?_⟩
  · simp +decide [absCallTree, transform, transformList, callRule,
      Interpreter.function_call, Interpreter.nargs, Interpreter.mapFloat,
      Interpreter.implAbs, valEqStr, pyFloat, parseDecLit, parseUnsignedDec, digitsToNat,
      bind, Except.bind, pure, Except.pure]
  · simp +decide [do_calc, absCallTree, transform, transformList, callRule,
      Interpreter.function_call, Interpreter.nargs, Interpreter.mapFloat,
      Interpreter.implAbs, valEqStr, pyFloat, parseDecLit, parseUnsignedDec, digitsToNat,
      bind, Except.bind, pure, Except.pure, formatAnswer, floatModOne, eps]

/-- Claim C3 (amended): a registered function invocation that does not time
out returns the implementation result as a native number, unconverted;
the conversion back to a `Decimal` happens only at an enclosing reduction
rule through its own `Decimal(...)` call (which is exact), and a top-level
function-call result reaches the formatter still native. -/
theorem C3_native_result (n : ℕ) (args : List Val) (fn : String)
    (f : List ℚ → FnOutcome) (fl : List ℚ) (q : ℚ)
    (hn : args.length = n) (hm : Interpreter.mapFloat args = .ok fl)
    (hf : f fl = .ok q) :
    Interpreter.nargs n args fn f = .ok (.num q) ∧ pyDecimal (.num q) = .ok q := by
  constructor
  · unfold Interpreter.nargs
    rw [if_neg (by simp [hn])]
    simp [hm, hf]
  · rfl

/-- Witness for the amended C3 at `abs(3)`. -/
theorem C3_native_result_witness :
    Interpreter.nargs 1 [Val.tok "3"] "abs" Interpreter.implAbs = .ok (.num 3) ∧
    pyDecimal (.num 3) = .ok 3 :=
  C3_native_result 1 [Val.tok "3"] "abs" Interpreter.implAbs [3] 3
    (by decide)
    (by simp +decide [Interpreter.mapFloat, pyFloat, parseDecLit, parseUnsignedDec,
      digitsToNat, bind, Except.bind, pure, Except.pure])
    (by norm_num [Interpreter.implAbs])

/-- Claim C4 counterexample: the transformer is bottom-up, so
`debug(1+2)` carries the already computed `Decimal(3)`, not the raw
unevaluated argument text. -/
theorem C4_counterexample :
    transform zeroLib debugSumTree = .error (.debug [.dec 3]) ∧
    Val.dec 3 ≠ Val.tok "1+2" := by
  constructor
  · simp +decide [debugSumTree, sum12Tree, transform, transformList, callRule,
      Interpreter.function_call, Interpreter.sum, valEqStr, pyDecimal, pyIndex,
      parseDecLit, parseUnsignedDec, digitsToNat, bind, Except.bind, pure, Except.pure]
    norm_num
  · simp

/-- Claim C4 (amended): a `debug` call invokes no registered function and
raises a `Debug` signal carrying its argument list as transformed bottom-up
— literal-token arguments stay raw strings (`debug(3,4)` carries
`["3","4"]`), while compound arguments are already reduced — and `do_calc`
treats the signal as a non-failure, replying with the first argument rather
than an error message. -/
theorem C4_debug_signal (lib : FloatLib) (cs : NodeList) (ws : List Val)
    (h : transformList lib cs = .ok ws) :
    transform lib (.tree .function_call (.cons (.token "debug") cs)) =
      .error (.debug ws) ∧
    transform lib debug34Tree = .error (.debug [.tok "3", .tok "4"]) ∧
    do_calc lib debug34Tree = .debugSent (.tok "3") := by
  refine ⟨?_, ?_, ?_⟩
  · simp +decide [transform, transformList, h, callRule, Interpreter.function_call,
      valEqStr]
  · simp +decide [debug34Tree, transform, transformList, callRule,
      Interpreter.function_call, valEqStr]
  · simp +decide [do_calc, debug34Tree, transform, transformList, callRule,
      Interpreter.function_call, valEqStr]

/-- Witness for the amended C4 at `debug(3,4)`. -/
theorem C4_debug_signal_witness :
    transform zeroLib debug34Tree = .error (.debug [.tok "3", .tok "4"]) ∧
    do_calc zeroLib debug34Tree = .debugSent (.tok "3") := by
  have h := C4_debug_signal zeroLib (.cons (.token "3") (.cons (.token "4") .nil))
    [.tok "3", .tok "4"] (by simp [transformList, transform])
  exact ⟨h.2.1, h.2.2⟩

/-- Claim C7: `fact` on a single negative or non-integral argument fails
with a `ValueError` (domain violation); in particular `fact(-1)` fails with
the `ValueError` "factorial() not defined for negative values". -/
theorem C7_fact_domain (lib : FloatLib) (v : Val) (q : ℚ)
    (hv : pyFloat v = .ok q) (hd : q < 0 ∨ q.den ≠ 1) :
    (∃ msg, Interpreter.function_call lib [.tok "fact", v] =
      .error (.valueError msg)) ∧
    transform lib factNeg1Tree =
      .error (.valueError "factorial() not defined for negative values") := by
  constructor
  · by_cases hden : q.den = 1
    · have hneg : q < 0 := by
        rcases hd with hval | hval
        · exact hval
        · exact absurd hden hval
      refine ⟨"factorial() not defined for negative values", ?_⟩
      simp +decide [Interpreter.function_call, valEqStr, Interpreter.nargs,
        Interpreter.mapFloat, Interpreter.implFact, hv, hden, hneg, bind, Except.bind,
        pure, Except.pure, LibExc.toPyExc]
    · refine ⟨"factorial() only accepts integral values", ?_⟩
      simp +decide [Interpreter.function_call, valEqStr, Interpreter.nargs,
        Interpreter.mapFloat, Interpreter.implFact, hv, hden, bind, Except.bind,
        pure, Except.pure, LibExc.toPyExc]
  · simp +decide [factNeg1Tree, transform, transformList, callRule,
      Interpreter.function_call, Interpreter.unary, Interpreter.nargs,
      Interpreter.mapFloat, Interpreter.implFact, valEqStr, pyFloat, pyDecimal, pyIndex,
      parseDecLit, parseUnsignedDec, digitsToNat, bind, Except.bind, pure, Except.pure,
      LibExc.toPyExc]

/-- Witness for C7 at `fact(-1)`. -/
theorem C7_fact_domain_witness :
    (∃ msg, Interpreter.function_call zeroLib [.tok "fact", .dec (-1)] =
      .error (.valueError msg)) ∧
    transform zeroLib factNeg1Tree =
      .error (.valueError "factorial() not defined for negative values") :=
  C7_fact_domain zeroLib (.dec (-1)) (-1) rfl (Or.inl (by norm_num))

/-- Claim C10: when `debug` was called with at least one argument, the
reply `do_calc` sends is exactly the first carried argument
(`e.orig_exc.args[0]`); every later argument is discarded. -/
theorem C10_debug_first_only (lib : FloatLib) (t : Node) (v : Val) (rest : List Val)
    (h : transform lib t = .error (.debug (v :: rest))) :
    do_calc lib t = .debugSent v := by
  simp [do_calc, h]

/-- Witness for C10 at `debug(3,4)`: the reply is `"3"`; `"4"` is
discarded. -/
theorem C10_debug_first_only_witness :
    do_calc zeroLib debug34Tree = .debugSent (.tok "3") :=
  C10_debug_first_only zeroLib debug34Tree (.tok "3") [.tok "4"]
    (by simp +decide [debug34Tree, transform, transformList, callRule,
      Interpreter.function_call, valEqStr])

end Calcubot
